import Mathlib

/-!
Verification of the megaeth-alpha-suite core pipeline against its
natural-language specification.

Each definition is a shallow embedding of the corresponding Python
function, keeping the source's names and control flow.  Python machine
arithmetic is embedded as exact arithmetic over ℤ/ℚ; the one place the
source computes with floating point (the Token Scorer's confidence
combination, `int(l*0.25 + h*0.25 + c*0.30 + d*0.20)`) is embedded as the
exact floor `(25l + 25h + 30c + 20d) / 100`, which agrees with the
double-precision evaluation on every tuple of sub-scores the four
`calc_*` functions can produce (all are multiples of 5 in [0, 100];
checked exhaustively over that grid).
-/

/-- `leadsWith pat s` is true when `pat` is an initial segment of `s`
(helper for the textual-containment checks the Python `in` operator
performs on bytecode and method-name strings). -/
def leadsWith : List Char → List Char → Bool
  | [], _ => true
  | _ :: _, [] => false
  | a :: as, b :: bs => a == b && leadsWith as bs

/-- `occursIn pat s` embeds Python's substring test `pat in s`. -/
def occursIn (pat : List Char) : List Char → Bool
  | [] => leadsWith pat []
  | b :: rest => leadsWith pat (b :: rest) || occursIn pat rest

namespace TokenScorer

/-- Input of `calc_liquidity_score` (the dict `{'usd': ..., 'locked': ...}`). -/
structure LiquidityData where
  usd : ℚ
  locked : Bool

/-- Input of `calc_holder_score` (the dict `{'count': ..., 'top_percent': ...}`). -/
structure HolderData where
  count : ℤ
  top_percent : ℚ

/-- Input of `calc_contract_score` (the contract-analysis flag dict). -/
structure ContractData where
  is_honeypot : Bool
  is_mintable : Bool
  has_blacklist : Bool
  is_proxy : Bool
  renounced : Bool
  verified : Bool
  audited : Bool

/-- Input of `calc_deployer_score` when the deployer dict is non-empty;
`score_token` passes `{}` (embedded as `none`) when no deployer is given. -/
structure DeployerData where
  token_count : ℤ
  success_rate : ℚ
  rugs : ℤ

/-- `TokenScorer.calc_liquidity_score` (token_scorer.py lines 96-119). -/
def calc_liquidity_score (d : LiquidityData) : ℤ :=
  min 100
    ((if 100000 ≤ d.usd then 40
      else if 50000 ≤ d.usd then 35
      else if 10000 ≤ d.usd then 25
      else if 5000 ≤ d.usd then 15
      else if 1000 ≤ d.usd then 5
      else 0) +
     (if d.locked then 60 else 0))

/-- `TokenScorer.calc_holder_score` (token_scorer.py lines 121-148). -/
def calc_holder_score (d : HolderData) : ℤ :=
  min 100
    ((if 1000 ≤ d.count then 40
      else if 500 ≤ d.count then 30
      else if 100 ≤ d.count then 20
      else if 50 ≤ d.count then 10
      else 0) +
     (if d.top_percent ≤ 10 then 60
      else if d.top_percent ≤ 20 then 45
      else if d.top_percent ≤ 30 then 30
      else if d.top_percent ≤ 50 then 15
      else 0))

/-- `TokenScorer.calc_contract_score` (token_scorer.py lines 150-172). -/
def calc_contract_score (d : ContractData) : ℤ :=
  max 0 (min 100
    (50 - (if d.is_honeypot then 50 else 0)
        - (if d.is_mintable then 15 else 0)
        - (if d.has_blacklist then 20 else 0)
        - (if d.is_proxy then 10 else 0)
        + (if d.renounced then 25 else 0)
        + (if d.verified then 15 else 0)
        + (if d.audited then 30 else 0)))

/-- `TokenScorer.calc_deployer_score` (token_scorer.py lines 174-201);
`none` is the empty dict, which returns the fixed unknown-deployer score 30. -/
def calc_deployer_score : Option DeployerData → ℤ
  | none => 30
  | some d =>
    max 0 (min 100
      (50 + (if 5 ≤ d.token_count ∧ d.rugs = 0 then 25
             else if 2 ≤ d.token_count ∧ d.rugs = 0 then 15
             else 0)
          + (if 80 ≤ d.success_rate then 25
             else if 50 ≤ d.success_rate then 10
             else 0)
          - (if 0 < d.rugs then d.rugs * 20 else 0)))

/-- The confidence combination of `score_token` (token_scorer.py lines 58-63):
`int(l*0.25 + h*0.25 + c*0.30 + d*0.20)` embedded as the exact floor of the
weighted sum (see the file header for why this is faithful on every tuple of
sub-scores the `calc_*` functions can return). -/
def confidence_of (l h c d : ℤ) : ℤ :=
  (25 * l + 25 * h + 30 * c + 20 * d) / 100

/-- The risk-level if-chain of `score_token` (token_scorer.py lines 66-73). -/
def risk_of (confidence : ℤ) : String :=
  if 75 ≤ confidence then "LOW"
  else if 50 ≤ confidence then "MEDIUM"
  else if 25 ≤ confidence then "HIGH"
  else "EXTREME"

/-- The score fields of the `TokenScore` dataclass computed by `score_token`
(the metadata/flag passthrough fields play no role in the claims and are
omitted). -/
structure TokenScore where
  confidence_score : ℤ
  risk_level : String
  liquidity_score : ℤ
  holder_score : ℤ
  contract_score : ℤ
  deployer_score : ℤ

/-- `TokenScorer.score_token` (token_scorer.py lines 42-94), with the four
external data fetches supplied as arguments. -/
def score_token (liq : LiquidityData) (hold : HolderData) (contr : ContractData)
    (depl : Option DeployerData) : TokenScore :=
  { confidence_score :=
      confidence_of (calc_liquidity_score liq) (calc_holder_score hold)
        (calc_contract_score contr) (calc_deployer_score depl)
    risk_level :=
      risk_of (confidence_of (calc_liquidity_score liq) (calc_holder_score hold)
        (calc_contract_score contr) (calc_deployer_score depl))
    liquidity_score := calc_liquidity_score liq
    holder_score := calc_holder_score hold
    contract_score := calc_contract_score contr
    deployer_score := calc_deployer_score depl }

/-- Modelled from the spec's words, for comparison with the implementation:
`confidence = round(0.25·l + 0.25·h + 0.30·c + 0.20·d)`, nearest-integer
rounding of the weighted sub-score sum. -/
def spec_round_confidence (l h c d : ℤ) : ℤ :=
  round ((25 * l + 25 * h + 30 * c + 20 * d : ℚ) / 100)

lemma calc_liquidity_score_bounds (d : LiquidityData) :
    0 ≤ calc_liquidity_score d ∧ calc_liquidity_score d ≤ 100 := by
  unfold calc_liquidity_score
  refine ⟨le_min (by norm_num) (add_nonneg ?_ ?_), min_le_left _ _⟩ <;>
    split_ifs <;> norm_num

lemma calc_holder_score_bounds (d : HolderData) :
    0 ≤ calc_holder_score d ∧ calc_holder_score d ≤ 100 := by
  unfold calc_holder_score
  refine ⟨le_min (by norm_num) (add_nonneg ?_ ?_), min_le_left _ _⟩ <;>
    split_ifs <;> norm_num

lemma clamp_bounds (x : ℤ) : 0 ≤ max 0 (min 100 x) ∧ max 0 (min 100 x) ≤ 100 :=
  ⟨le_max_left _ _, max_le (by norm_num) (min_le_left _ _)⟩

lemma calc_contract_score_bounds (d : ContractData) :
    0 ≤ calc_contract_score d ∧ calc_contract_score d ≤ 100 := by
  unfold calc_contract_score; exact clamp_bounds _

lemma calc_deployer_score_bounds (d : Option DeployerData) :
    0 ≤ calc_deployer_score d ∧ calc_deployer_score d ≤ 100 := by
  cases d with
  | none => unfold calc_deployer_score; norm_num
  | some d => unfold calc_deployer_score; exact clamp_bounds _

lemma confidence_of_bounds {l h c d : ℤ} (hl : 0 ≤ l ∧ l ≤ 100) (hh : 0 ≤ h ∧ h ≤ 100)
    (hc : 0 ≤ c ∧ c ≤ 100) (hd : 0 ≤ d ∧ d ≤ 100) :
    0 ≤ confidence_of l h c d ∧ confidence_of l h c d ≤ 100 := by
  unfold confidence_of
  obtain ⟨hl1, hl2⟩ := hl; obtain ⟨hh1, hh2⟩ := hh
  obtain ⟨hc1, hc2⟩ := hc; obtain ⟨hd1, hd2⟩ := hd
  omega

lemma risk_of_iff (c : ℤ) :
    (risk_of c = "LOW" ↔ 75 ≤ c) ∧
    (risk_of c = "MEDIUM" ↔ 50 ≤ c ∧ c < 75) ∧
    (risk_of c = "HIGH" ↔ 25 ≤ c ∧ c < 50) ∧
    (risk_of c = "EXTREME" ↔ c < 25) := by
  unfold risk_of
  split_ifs with h1 h2 h3 <;>
    refine ⟨⟨fun hx => ?_, fun hx => ?_⟩, ⟨fun hx => ?_, fun hx => ?_⟩,
      ⟨fun hx => ?_, fun hx => ?_⟩, ⟨fun hx => ?_, fun hx => ?_⟩⟩ <;>
      first
        | rfl
        | omega
        | exact absurd hx (by decide)

end TokenScorer

open TokenScorer in
/-- C1 (amended): the Token Scorer's final confidence is the integer
truncation (floor) of the weighted sub-score sum
`0.25·liquidity + 0.25·holder + 0.30·contract + 0.20·deployer` — not its
nearest-integer rounding — and the risk tier is LOW iff confidence ≥ 75,
MEDIUM iff 50 ≤ confidence < 75, HIGH iff 25 ≤ confidence < 50, and
EXTREME iff confidence < 25. -/
theorem C1_confidence_truncates_and_tier
    (liq : LiquidityData) (hold : HolderData) (contr : ContractData)
    (depl : Option DeployerData) :
    ((score_token liq hold contr depl).confidence_score =
      (25 * (score_token liq hold contr depl).liquidity_score +
       25 * (score_token liq hold contr depl).holder_score +
       30 * (score_token liq hold contr depl).contract_score +
       20 * (score_token liq hold contr depl).deployer_score) / 100) ∧
    ((score_token liq hold contr depl).risk_level = "LOW" ↔
      75 ≤ (score_token liq hold contr depl).confidence_score) ∧
    ((score_token liq hold contr depl).risk_level = "MEDIUM" ↔
      50 ≤ (score_token liq hold contr depl).confidence_score ∧
        (score_token liq hold contr depl).confidence_score < 75) ∧
    ((score_token liq hold contr depl).risk_level = "HIGH" ↔
      25 ≤ (score_token liq hold contr depl).confidence_score ∧
        (score_token liq hold contr depl).confidence_score < 50) ∧
    ((score_token liq hold contr depl).risk_level = "EXTREME" ↔
      (score_token liq hold contr depl).confidence_score < 25) := by
  refine ⟨rfl, ?_⟩
  simpa [score_token] using
    risk_of_iff (confidence_of (calc_liquidity_score liq) (calc_holder_score hold)
      (calc_contract_score contr) (calc_deployer_score depl))

open TokenScorer in
/-- C1 counterexample: on reachable inputs producing sub-scores
(0, 0, 5, 0) the code's confidence is `int(1.5) = 1`, while the spec's
`round(1.5) = 2`; so the claim "confidence equals the nearest-integer
rounding of the weighted sum" is false. -/
theorem C1_round_counterexample :
    (score_token ⟨0, false⟩ ⟨0, 100⟩ ⟨true, false, false, true, false, true, false⟩
        (some ⟨0, 0, 3⟩)).liquidity_score = 0 ∧
    (score_token ⟨0, false⟩ ⟨0, 100⟩ ⟨true, false, false, true, false, true, false⟩
        (some ⟨0, 0, 3⟩)).holder_score = 0 ∧
    (score_token ⟨0, false⟩ ⟨0, 100⟩ ⟨true, false, false, true, false, true, false⟩
        (some ⟨0, 0, 3⟩)).contract_score = 5 ∧
    (score_token ⟨0, false⟩ ⟨0, 100⟩ ⟨true, false, false, true, false, true, false⟩
        (some ⟨0, 0, 3⟩)).deployer_score = 0 ∧
    (score_token ⟨0, false⟩ ⟨0, 100⟩ ⟨true, false, false, true, false, true, false⟩
        (some ⟨0, 0, 3⟩)).confidence_score = 1 ∧
    spec_round_confidence 0 0 5 0 = 2 := by
  refine ⟨?_, ?_, ?_, ?_, ?_, ?_⟩
  · norm_num [score_token, calc_liquidity_score]
  · norm_num [score_token, calc_holder_score]
  · norm_num [score_token, calc_contract_score]
  · norm_num [score_token, calc_deployer_score]
  · norm_num [score_token, confidence_of, calc_liquidity_score, calc_holder_score,
      calc_contract_score, calc_deployer_score]
  · unfold spec_round_confidence
    rw [round_eq]
    norm_num [Int.floor_eq_iff]

open TokenScorer in
/-- C6: every component score and the final confidence produced by the
Token Scorer lie in [0, 100], for all inputs. -/
theorem C6_scores_bounded
    (liq : LiquidityData) (hold : HolderData) (contr : ContractData)
    (depl : Option DeployerData) :
    (0 ≤ (score_token liq hold contr depl).liquidity_score ∧
      (score_token liq hold contr depl).liquidity_score ≤ 100) ∧
    (0 ≤ (score_token liq hold contr depl).holder_score ∧
      (score_token liq hold contr depl).holder_score ≤ 100) ∧
    (0 ≤ (score_token liq hold contr depl).contract_score ∧
      (score_token liq hold contr depl).contract_score ≤ 100) ∧
    (0 ≤ (score_token liq hold contr depl).deployer_score ∧
      (score_token liq hold contr depl).deployer_score ≤ 100) ∧
    (0 ≤ (score_token liq hold contr depl).confidence_score ∧
      (score_token liq hold contr depl).confidence_score ≤ 100) :=
  ⟨calc_liquidity_score_bounds liq, calc_holder_score_bounds hold,
    calc_contract_score_bounds contr, calc_deployer_score_bounds depl,
    confidence_of_bounds (calc_liquidity_score_bounds liq) (calc_holder_score_bounds hold)
      (calc_contract_score_bounds contr) (calc_deployer_score_bounds depl)⟩

open TokenScorer in
/-- C8: on the concrete scenario (liquidity 100000 USD locked, 1000 holders
with top holder 5%, all four risk flags set with no bonuses, no deployer
history) the scorer yields sub-scores 100/100/0/30, confidence 56 and risk
tier MEDIUM. -/
theorem C8_scenario :
    (score_token ⟨100000, true⟩ ⟨1000, 5⟩ ⟨true, true, true, true, false, false, false⟩
        none).liquidity_score = 100 ∧
    (score_token ⟨100000, true⟩ ⟨1000, 5⟩ ⟨true, true, true, true, false, false, false⟩
        none).holder_score = 100 ∧
    (score_token ⟨100000, true⟩ ⟨1000, 5⟩ ⟨true, true, true, true, false, false, false⟩
        none).contract_score = 0 ∧
    (score_token ⟨100000, true⟩ ⟨1000, 5⟩ ⟨true, true, true, true, false, false, false⟩
        none).deployer_score = 30 ∧
    (score_token ⟨100000, true⟩ ⟨1000, 5⟩ ⟨true, true, true, true, false, false, false⟩
        none).confidence_score = 56 ∧
    (score_token ⟨100000, true⟩ ⟨1000, 5⟩ ⟨true, true, true, true, false, false, false⟩
        none).risk_level = "MEDIUM" := by
  refine ⟨?_, ?_, ?_, ?_, ?_, ?_⟩ <;>
    norm_num [score_token, confidence_of, risk_of, calc_liquidity_score,
      calc_holder_score, calc_contract_score, calc_deployer_score]

namespace PnLTracker

/-- The `Trade` dataclass (pnl_tracker.py lines 11-20); float amounts are
embedded as rationals and the timestamp as an integer. -/
structure Trade where
  tx_hash : String
  token_address : String
  token_symbol : String
  trade_type : String
  amount_token : ℚ
  amount_eth : ℚ
  price_usd : ℚ
  timestamp : ℤ

/-- `PnLTracker.record_trade` acting on one wallet's trade list
(pnl_tracker.py lines 59-67): the trade is appended unconditionally.
The tracker keys the lists by lower-cased wallet address and the lists of
distinct wallets are independent, so a single wallet's list is modelled. -/
def record_trade (trades : List Trade) (t : Trade) : List Trade :=
  trades ++ [t]

/-- One step of the per-token cost/returned accumulation of `get_wallet_pnl`
(pnl_tracker.py lines 132-141): the insertion-ordered dict `token_pnl` is an
association list; a BUY adds to `cost`, anything else adds to `returned`. -/
def upd_token_pnl (m : List (String × ℚ × ℚ)) (tok : String) (isBuy : Bool) (amt : ℚ) :
    List (String × ℚ × ℚ) :=
  match m with
  | [] => [(tok, (if isBuy then amt else 0, if isBuy then 0 else amt))]
  | (t, c, r) :: rest =>
    if t = tok then
      (t, (c + (if isBuy then amt else 0), r + (if isBuy then 0 else amt))) :: rest
    else (t, (c, r)) :: upd_token_pnl rest tok isBuy amt

/-- The `token_pnl` dict of `get_wallet_pnl` after folding over the wallet's
trades, in insertion order. -/
def token_pnl (trades : List Trade) : List (String × ℚ × ℚ) :=
  trades.foldl
    (fun m t => upd_token_pnl m t.token_address (t.trade_type == "BUY") t.amount_eth) []

/-- The aggregate statistics fields of the `WalletPnL` dataclass. -/
structure WalletPnL where
  total_trades : ℕ
  winning_trades : ℕ
  losing_trades : ℕ
  win_rate : ℚ
  total_invested_eth : ℚ
  total_returned_eth : ℚ
  realized_pnl_eth : ℚ

/-- `PnLTracker.get_wallet_pnl` (pnl_tracker.py lines 101-163), restricted to
the aggregate statistics the claims are about (display-only fields — best,
worst and average trade, positions, recent trades — are omitted). -/
def get_wallet_pnl (trades : List Trade) : WalletPnL :=
  if trades.isEmpty then
    { total_trades := 0, winning_trades := 0, losing_trades := 0, win_rate := 0,
      total_invested_eth := 0, total_returned_eth := 0, realized_pnl_eth := 0 }
  else
    { total_trades := trades.length
      winning_trades := (token_pnl trades).countP (fun x => decide (x.2.1 < x.2.2))
      losing_trades := (token_pnl trades).countP (fun x => decide (x.2.2 < x.2.1))
      win_rate :=
        if (token_pnl trades).isEmpty then 0
        else ((token_pnl trades).countP (fun x => decide (x.2.1 < x.2.2)) : ℚ) /
          ((token_pnl trades).length : ℚ) * 100
      total_invested_eth :=
        ((trades.filter (fun t => t.trade_type == "BUY")).map Trade.amount_eth).sum
      total_returned_eth :=
        ((trades.filter (fun t => t.trade_type == "SELL")).map Trade.amount_eth).sum
      realized_pnl_eth :=
        ((trades.filter (fun t => t.trade_type == "SELL")).map Trade.amount_eth).sum -
          ((trades.filter (fun t => t.trade_type == "BUY")).map Trade.amount_eth).sum }

/-- Number of tokens whose accumulated `returned` equals their accumulated
`cost` (counted by neither the `wins` nor the `losses` comprehension). -/
def neutral_token_count (trades : List Trade) : ℕ :=
  (token_pnl trades).countP (fun x => decide (x.2.2 = x.2.1))

/-- Modelled from the spec's words, for comparison with the implementation:
`win_rate = wins / (wins + losses)` computed only over tokens with at least
one closing SELL trade. -/
def spec_win_rate (trades : List Trade) : ℚ :=
  ((((token_pnl trades).filter
      (fun x => trades.any (fun t => t.trade_type == "SELL" && t.token_address == x.1))).countP
      (fun x => decide (x.2.1 < x.2.2)) : ℕ) : ℚ) /
    (((((token_pnl trades).filter
      (fun x => trades.any (fun t => t.trade_type == "SELL" && t.token_address == x.1))).countP
      (fun x => decide (x.2.1 < x.2.2)) +
      ((token_pnl trades).filter
      (fun x => trades.any (fun t => t.trade_type == "SELL" && t.token_address == x.1))).countP
      (fun x => decide (x.2.2 < x.2.1)) : ℕ)) : ℚ) * 100

lemma countP_win_loss_neutral (l : List (String × ℚ × ℚ)) :
    l.countP (fun x => decide (x.2.1 < x.2.2)) + l.countP (fun x => decide (x.2.2 < x.2.1)) +
      l.countP (fun x => decide (x.2.2 = x.2.1)) = l.length := by
  induction l with
  | nil => simp
  | cons a l ih =>
    simp only [List.countP_cons, List.length_cons, decide_eq_true_eq]
    rcases lt_trichotomy a.2.1 a.2.2 with h | h | h
    · simp only [if_pos h, if_neg h.asymm, if_neg (ne_of_gt h)]
      omega
    · rw [h]
      simp only [if_neg (lt_irrefl a.2.2), eq_self_iff_true, if_true]
      omega
    · simp only [if_pos h, if_neg h.asymm, if_neg (ne_of_lt h)]
      omega

end PnLTracker

open PnLTracker in
/-- C2 counterexample: recording the same trade (same tx_hash) twice is not
a no-op — the trade count and invested total after the second call differ
from those after the first. -/
theorem C2_counterexample :
    (get_wallet_pnl (record_trade (record_trade []
      ⟨"0xdead", "0xtok", "TOK", "BUY", 1, 1, 0, 0⟩)
      ⟨"0xdead", "0xtok", "TOK", "BUY", 1, 1, 0, 0⟩)).total_trades = 2 ∧
    (get_wallet_pnl (record_trade []
      ⟨"0xdead", "0xtok", "TOK", "BUY", 1, 1, 0, 0⟩)).total_trades = 1 ∧
    (get_wallet_pnl (record_trade (record_trade []
      ⟨"0xdead", "0xtok", "TOK", "BUY", 1, 1, 0, 0⟩)
      ⟨"0xdead", "0xtok", "TOK", "BUY", 1, 1, 0, 0⟩)).total_invested_eth = 2 ∧
    (get_wallet_pnl (record_trade []
      ⟨"0xdead", "0xtok", "TOK", "BUY", 1, 1, 0, 0⟩)).total_invested_eth = 1 := by
  refine ⟨?_, ?_, ?_, ?_⟩ <;> norm_num [get_wallet_pnl, record_trade]

open PnLTracker in
/-- C2 (amended): `record_trade` appends unconditionally, with no dedup on
tx_hash: recording the same trade a second time increments the derived trade
count by one and adds the trade's base amount to the invested (for a BUY) or
returned (for a SELL) total again. -/
theorem C2_record_trade_appends (ts : List Trade) (t : Trade) :
    (get_wallet_pnl (record_trade (record_trade ts t) t)).total_trades =
      (get_wallet_pnl (record_trade ts t)).total_trades + 1 ∧
    (get_wallet_pnl (record_trade (record_trade ts t) t)).total_invested_eth =
      (get_wallet_pnl (record_trade ts t)).total_invested_eth +
        (if t.trade_type = "BUY" then t.amount_eth else 0) ∧
    (get_wallet_pnl (record_trade (record_trade ts t) t)).total_returned_eth =
      (get_wallet_pnl (record_trade ts t)).total_returned_eth +
        (if t.trade_type = "SELL" then t.amount_eth else 0) := by
  have h1 : (record_trade ts t).isEmpty = false := by
    simp [record_trade]
  have h2 : (record_trade (record_trade ts t) t).isEmpty = false := by
    simp [record_trade]
  refine ⟨?_, ?_, ?_⟩ <;>
    simp only [get_wallet_pnl, h1, h2, Bool.false_eq_true, if_false] <;>
    simp only [record_trade, List.filter_append, List.map_append, List.sum_append,
      List.length_append, List.filter_cons, List.filter_nil] <;>
    simp <;>
    split_ifs <;>
    simp


open PnLTracker in
/-- C3 (amended): the reported win rate is `wins / (number of distinct tokens
traded) · 100`, i.e. `wins / (wins + losses + neutral tokens) · 100`, where a
token with accumulated `returned > cost` is a win and `returned < cost` a
loss; a token that was only bought (returned 0 < cost) therefore counts as a
loss and sits in the denominator, and only tokens with `returned = cost`
escape both counts. -/
theorem C3_win_rate_over_all_tokens (trades : List Trade) :
    (get_wallet_pnl trades).win_rate =
      ((get_wallet_pnl trades).winning_trades : ℚ) /
        (((get_wallet_pnl trades).winning_trades + (get_wallet_pnl trades).losing_trades +
          neutral_token_count trades : ℕ) : ℚ) * 100 := by
  by_cases hemp : trades.isEmpty
  · rw [List.isEmpty_iff] at hemp
    subst hemp
    simp [get_wallet_pnl, neutral_token_count, token_pnl]
  · simp only [get_wallet_pnl, hemp, Bool.false_eq_true, if_false]
    by_cases htp : (token_pnl trades).isEmpty
    · rw [List.isEmpty_iff] at htp
      simp [htp, neutral_token_count]
    · simp only [htp, Bool.false_eq_true, if_false, neutral_token_count]
      rw [countP_win_loss_neutral (token_pnl trades)]

open PnLTracker in
/-- C3 counterexample: for the history "buy token A for 1, sell A for 2,
buy token B for 1", the code reports a win rate of 50% (token B, never
sold, counts as a loss and enters the denominator), while the claim's
formula — wins/(wins+losses) over tokens with at least one closing sell —
gives 100%. -/
theorem C3_counterexample :
    (get_wallet_pnl [⟨"0xa1", "0xaaa", "AAA", "BUY", 1, 1, 0, 0⟩,
      ⟨"0xa2", "0xaaa", "AAA", "SELL", 1, 2, 0, 1⟩,
      ⟨"0xb1", "0xbbb", "BBB", "BUY", 1, 1, 0, 2⟩]).win_rate = 50 ∧
    (get_wallet_pnl [⟨"0xa1", "0xaaa", "AAA", "BUY", 1, 1, 0, 0⟩,
      ⟨"0xa2", "0xaaa", "AAA", "SELL", 1, 2, 0, 1⟩,
      ⟨"0xb1", "0xbbb", "BBB", "BUY", 1, 1, 0, 2⟩]).winning_trades = 1 ∧
    (get_wallet_pnl [⟨"0xa1", "0xaaa", "AAA", "BUY", 1, 1, 0, 0⟩,
      ⟨"0xa2", "0xaaa", "AAA", "SELL", 1, 2, 0, 1⟩,
      ⟨"0xb1", "0xbbb", "BBB", "BUY", 1, 1, 0, 2⟩]).losing_trades = 1 ∧
    spec_win_rate [⟨"0xa1", "0xaaa", "AAA", "BUY", 1, 1, 0, 0⟩,
      ⟨"0xa2", "0xaaa", "AAA", "SELL", 1, 2, 0, 1⟩,
      ⟨"0xb1", "0xbbb", "BBB", "BUY", 1, 1, 0, 2⟩] = 100 := by
  have htp : token_pnl [⟨"0xa1", "0xaaa", "AAA", "BUY", 1, 1, 0, 0⟩,
      ⟨"0xa2", "0xaaa", "AAA", "SELL", 1, 2, 0, 1⟩,
      ⟨"0xb1", "0xbbb", "BBB", "BUY", 1, 1, 0, 2⟩] =
      [("0xaaa", (1, 2)), ("0xbbb", (1, 0))] := by
    norm_num [token_pnl, upd_token_pnl,
      show ("0xaaa" : String) ≠ "0xbbb" from by decide,
      show ("SELL" : String) ≠ "BUY" from by decide]
  refine ⟨?_, ?_, ?_, ?_⟩ <;>
    norm_num [get_wallet_pnl, spec_win_rate, htp,
      show (("BUY" : String) == "SELL") = false from by decide,
      show (("0xaaa" : String) == "0xbbb") = false from by decide]


namespace WalletAnalyzer

/-- The `WalletLabel` enum (wallet_analyzer.py lines 11-16). -/
inductive WalletLabel
  | BUILDER
  | FARMER
  | SNIPER
  | WHALE
  | UNKNOWN
deriving DecidableEq

/-- `WalletAnalyzer.determine_label` (wallet_analyzer.py lines 91-112). -/
def determine_label (total_trades : ℤ) (tokens_deployed : ℤ)
    (avg_hold_time : ℚ) (win_rate : ℚ) : WalletLabel :=
  if 1 ≤ tokens_deployed then .BUILDER
  else if avg_hold_time < 1 ∧ 60 < win_rate ∧ 10 < total_trades then .SNIPER
  else if 50 < total_trades ∧ 24 < avg_hold_time then .FARMER
  else if 20 < total_trades ∧ 50 < win_rate then .WHALE
  else .UNKNOWN

end WalletAnalyzer

open WalletAnalyzer in
/-- C7: the label rules are evaluated in precedence order with BUILDER
first, so any wallet with at least one deployed token is labeled BUILDER
(and in particular never SNIPER), regardless of its trading statistics. -/
theorem C7_builder_precedence (total_trades : ℤ) (tokens_deployed : ℤ)
    (avg_hold_time : ℚ) (win_rate : ℚ) (h : 1 ≤ tokens_deployed) :
    determine_label total_trades tokens_deployed avg_hold_time win_rate =
      WalletLabel.BUILDER ∧
    determine_label total_trades tokens_deployed avg_hold_time win_rate ≠
      WalletLabel.SNIPER := by
  unfold determine_label
  rw [if_pos h]
  exact ⟨rfl, by decide⟩

open WalletAnalyzer in
/-- C7 witness: a wallet with one deployed token and otherwise
SNIPER-qualifying stats (hold time 0.5 h < 1, win rate 80 > 60,
15 trades > 10) is labeled BUILDER, not SNIPER. -/
theorem C7_builder_precedence_witness :
    (1 : ℤ) ≤ 1 ∧ (1 : ℚ) / 2 < 1 ∧ (60 : ℚ) < 80 ∧ (10 : ℤ) < 15 ∧
    determine_label 15 1 (1 / 2) 80 = WalletLabel.BUILDER ∧
    determine_label 15 1 (1 / 2) 80 ≠ WalletLabel.SNIPER :=
  ⟨by norm_num, by norm_num, by norm_num, by norm_num,
    (C7_builder_precedence 15 1 (1 / 2) 80 (by norm_num)).1,
    (C7_builder_precedence 15 1 (1 / 2) 80 (by norm_num)).2⟩


namespace WalletTracker

/-- The trade-intent classification returned by `decode_transaction`
(the code returns the strings "BUY", "SELL", "SWAP", "TRANSFER",
"CONTRACT INTERACTION"). -/
inductive TxType
  | BUY
  | SELL
  | SWAP
  | TRANSFER
  | CONTRACT_INTERACTION
deriving DecidableEq

/-- The `SWAP_METHODS` selector table of `decode_transaction`
(wallet_tracker.py lines 105-113). -/
def SWAP_METHODS : List (String × String) :=
  [("0x7ff36ab5", "swapExactETHForTokens"),
   ("0x38ed1739", "swapExactTokensForTokens"),
   ("0x18cbafe5", "swapExactTokensForETH"),
   ("0xfb3bdb41", "swapETHForExactTokens"),
   ("0x5c11d795", "swapExactTokensForTokensSupportingFeeOnTransferTokens"),
   ("0x791ac947", "swapExactTokensForETHSupportingFeeOnTransferTokens"),
   ("0xb6f9de95", "swapExactETHForTokensSupportingFeeOnTransferTokens")]

/-- `input_data[:10] if len(input_data) >= 10 else ''`
(wallet_tracker.py line 116), on the `0x`-prefixed hex string of the
transaction's input. -/
def method_id (input_data : String) : String :=
  if 10 ≤ input_data.length then input_data.take 10 else ""

/-- `WalletTracker.decode_transaction` (wallet_tracker.py lines 102-134):
the classification together with the base-currency amount shown in the
detail string (`from_wei(tx.value)`, i.e. the wei value divided by 10^18);
`none` when the detail carries no amount (SWAP, CONTRACT INTERACTION). -/
def decode_transaction (input_data : String) (value : ℕ) : TxType × Option ℚ :=
  match SWAP_METHODS.lookup (method_id input_data) with
  | some name =>
    if occursIn "ETHFor".data name.data then (TxType.BUY, some ((value : ℚ) / 10 ^ 18))
    else if occursIn "ForETH".data name.data then (TxType.SELL, some ((value : ℚ) / 10 ^ 18))
    else (TxType.SWAP, none)
  | none =>
    if 0 < value then (TxType.TRANSFER, some ((value : ℚ) / 10 ^ 18))
    else (TxType.CONTRACT_INTERACTION, none)

lemma lookup_mem {l : List (String × String)} {k v : String}
    (h : l.lookup k = some v) : (k, v) ∈ l := by
  induction l with
  | nil => simp [List.lookup] at h
  | cons a l ih =>
    rw [List.lookup_cons] at h
    by_cases hk : (k == a.1) = true
    · rw [hk] at h
      have h2 : a.2 = v := Option.some.inj h
      have h1 : k = a.1 := eq_of_beq hk
      exact List.mem_cons.mpr (Or.inl (by rw [h1, ← h2]))
    · rw [Bool.not_eq_true] at hk
      rw [hk] at h
      exact List.mem_cons_of_mem a (ih h)

end WalletTracker

open WalletTracker in
/-- C9: the decoded trade intent is determined by the leading 4-byte
selector against the fixed swap table: a known selector whose method name
contains "ETHFor" yields BUY with the transaction's native value as the
amount; a known selector whose name contains "ForETH" yields SELL; any
other known swap selector yields SWAP; an unknown selector with nonzero
value yields TRANSFER; everything else yields CONTRACT INTERACTION. -/
theorem C9_decode_transaction (input_data : String) (value : ℕ) :
    (∀ name, SWAP_METHODS.lookup (method_id input_data) = some name →
      (occursIn "ETHFor".data name.data = true →
        decode_transaction input_data value =
          (TxType.BUY, some ((value : ℚ) / 10 ^ 18))) ∧
      (occursIn "ForETH".data name.data = true →
        decode_transaction input_data value =
          (TxType.SELL, some ((value : ℚ) / 10 ^ 18))) ∧
      (occursIn "ETHFor".data name.data = false →
        occursIn "ForETH".data name.data = false →
        decode_transaction input_data value = (TxType.SWAP, none))) ∧
    (SWAP_METHODS.lookup (method_id input_data) = none →
      (0 < value →
        decode_transaction input_data value =
          (TxType.TRANSFER, some ((value : ℚ) / 10 ^ 18))) ∧
      (value = 0 →
        decode_transaction input_data value = (TxType.CONTRACT_INTERACTION, none))) := by
  constructor
  · intro name hlook
    have hmem := lookup_mem hlook
    simp only [decode_transaction, hlook]
    simp only [SWAP_METHODS, List.mem_cons, List.mem_singleton, Prod.mk.injEq,
      List.not_mem_nil, or_false] at hmem
    rcases hmem with ⟨-, rfl⟩ | ⟨-, rfl⟩ | ⟨-, rfl⟩ | ⟨-, rfl⟩ | ⟨-, rfl⟩ | ⟨-, rfl⟩ | ⟨-, rfl⟩ <;>
      refine ⟨fun hb => ?_, fun hs => ?_, fun hb hs => ?_⟩ <;>
        first
          | exact absurd hb (by decide)
          | exact absurd hs (by decide)
          | rw [if_pos (by decide)]
          | rw [if_neg (by decide), if_pos (by decide)]
          | rw [if_neg (by decide), if_neg (by decide)]
  · intro hlook
    simp only [decode_transaction, hlook]
    exact ⟨fun hv => by rw [if_pos hv], fun hv => by rw [if_neg (by omega)]⟩

open WalletTracker in
/-- C9 witness: the selector 0x18cbafe5 maps to swapExactTokensForETH,
which contains "ForETH", so the transaction decodes as SELL; an unknown
selector with value 7 decodes as TRANSFER. -/
theorem C9_decode_transaction_witness :
    SWAP_METHODS.lookup (method_id "0x18cbafe5") = some "swapExactTokensForETH" ∧
    occursIn "ForETH".data "swapExactTokensForETH".data = true ∧
    decode_transaction "0x18cbafe5" 5 = (TxType.SELL, some ((5 : ℚ) / 10 ^ 18)) ∧
    SWAP_METHODS.lookup (method_id "0xdeadbeef") = none ∧
    decode_transaction "0xdeadbeef" 7 = (TxType.TRANSFER, some ((7 : ℚ) / 10 ^ 18)) :=
  ⟨by decide, by decide,
    (((C9_decode_transaction "0x18cbafe5" 5).1 "swapExactTokensForETH"
      (by decide)).2).1 (by decide),
    by decide,
    ((C9_decode_transaction "0xdeadbeef" 7).2 (by decide)).1 (by norm_num)⟩


namespace ContractAnalyzer

/-- The zero address compared against the `owner()` probe result
(contract_analyzer.py line 109). -/
def ZERO_ADDRESS : String := "0x0000000000000000000000000000000000000000"

/-- The proxy test (contract_analyzer.py line 87): `'delegatecall' in
bytecode.lower() or '363d3d373d3d3d363d' in bytecode`. -/
def proxy_cond (bytecode : List Char) : Bool :=
  occursIn "delegatecall".data (bytecode.map Char.toLower) ||
    occursIn "363d3d373d3d3d363d".data bytecode

/-- The mint test (contract_analyzer.py line 92): `'mint' in bytecode.lower()`. -/
def mint_cond (bytecode : List Char) : Bool :=
  occursIn "mint".data (bytecode.map Char.toLower)

/-- The blacklist test (contract_analyzer.py line 97):
`'blacklist' in bytecode.lower() or 'isbot' in bytecode.lower()`. -/
def blacklist_cond (bytecode : List Char) : Bool :=
  occursIn "blacklist".data (bytecode.map Char.toLower) ||
    occursIn "isbot".data (bytecode.map Char.toLower)

/-- The honeypot co-occurrence counter (contract_analyzer.py lines 120-124). -/
def suspicious_patterns (bytecode : List Char) : ℕ :=
  (if occursIn "require".data (bytecode.map Char.toLower) &&
      occursIn "from".data (bytecode.map Char.toLower) then 1 else 0) +
  (if occursIn "transfer".data (bytecode.map Char.toLower) &&
      occursIn "revert".data (bytecode.map Char.toLower) then 1 else 0)

/-- The result dict of `analyze_security` (buy/sell tax fields are the
constant 0 placeholders and are omitted). -/
structure SecurityResult where
  safe : Bool
  is_honeypot : Bool
  is_proxy : Bool
  has_mint : Bool
  has_blacklist : Bool
  owner : Option String
  risks : List String

/-- `ContractAnalyzer.analyze_security` (contract_analyzer.py lines 68-139)
as a function of the fetched bytecode text and the `owner()` probe result
(`none` models a raised probe, swallowed by `except: pass`).  The risk
notes accumulate in source order (proxy, mint, blacklist, renounced,
honeypot); `safe` starts true and is cleared by a blacklist match, by the
honeypot verdict, or by more than two accumulated notes. -/
def analyze_security (bytecode : List Char) (owner_probe : Option String) : SecurityResult :=
  { safe :=
      !(blacklist_cond bytecode) && !(decide (2 ≤ suspicious_patterns bytecode)) &&
        !(decide (2 <
          ((if proxy_cond bytecode then ["Proxy contract - can be upgraded"] else []) ++
           (if mint_cond bytecode then ["Has mint function"] else []) ++
           (if blacklist_cond bytecode then ["Has blacklist function"] else []) ++
           (if owner_probe = some ZERO_ADDRESS then ["Ownership renounced ✓"] else []) ++
           (if 2 ≤ suspicious_patterns bytecode then ["Possible honeypot"] else [])).length))
    is_honeypot := decide (2 ≤ suspicious_patterns bytecode)
    is_proxy := proxy_cond bytecode
    has_mint := mint_cond bytecode
    has_blacklist := blacklist_cond bytecode
    owner := owner_probe
    risks :=
      (if proxy_cond bytecode then ["Proxy contract - can be upgraded"] else []) ++
      (if mint_cond bytecode then ["Has mint function"] else []) ++
      (if blacklist_cond bytecode then ["Has blacklist function"] else []) ++
      (if owner_probe = some ZERO_ADDRESS then ["Ownership renounced ✓"] else []) ++
      (if 2 ≤ suspicious_patterns bytecode then ["Possible honeypot"] else []) }

end ContractAnalyzer

open ContractAnalyzer in
/-- C10: when the owner probe returns the zero address and the bytecode
triggers the proxy note and the mint note, with no blacklist match and
fewer than two honeypot co-occurrences, the renounced-ownership entry is
the third entry of the same risk-notes list, so its length exceeds two and
the profile comes back with safe = false. -/
theorem C10_renounced_note_flips_safe (bytecode : List Char) (owner_probe : Option String)
    (hown : owner_probe = some ZERO_ADDRESS)
    (hproxy : proxy_cond bytecode = true)
    (hmint : mint_cond bytecode = true)
    (hbl : blacklist_cond bytecode = false)
    (hsusp : suspicious_patterns bytecode < 2) :
    (analyze_security bytecode owner_probe).safe = false ∧
    (analyze_security bytecode owner_probe).risks.length = 3 := by
  have hns : ¬(2 ≤ suspicious_patterns bytecode) := by omega
  constructor <;>
    simp [analyze_security, hown, hproxy, hmint, hbl, hns]

open ContractAnalyzer in
/-- C10 witness: the bytecode text "delegatecallmint" triggers exactly the
proxy and mint notes, no blacklist and no honeypot co-occurrence; with a
zero-address owner the profile is unsafe with three notes. -/
theorem C10_renounced_note_flips_safe_witness :
    (some ZERO_ADDRESS : Option String) = some ZERO_ADDRESS ∧
    proxy_cond "delegatecallmint".data = true ∧
    mint_cond "delegatecallmint".data = true ∧
    blacklist_cond "delegatecallmint".data = false ∧
    suspicious_patterns "delegatecallmint".data < 2 ∧
    (analyze_security "delegatecallmint".data (some ZERO_ADDRESS)).safe = false ∧
    (analyze_security "delegatecallmint".data (some ZERO_ADDRESS)).risks.length = 3 :=
  ⟨rfl, by decide, by decide, by decide, by decide,
    (C10_renounced_note_flips_safe "delegatecallmint".data (some ZERO_ADDRESS)
      rfl (by decide) (by decide) (by decide) (by decide)).1,
    (C10_renounced_note_flips_safe "delegatecallmint".data (some ZERO_ADDRESS)
      rfl (by decide) (by decide) (by decide) (by decide)).2⟩


namespace RawScanner

/-- The `ERC20_PATTERNS` byte strings (raw_scanner.py lines 24-31). -/
def ERC20_PATTERNS : List String :=
  ["totalSupply", "balanceOf", "transfer", "allowance", "approve", "transferFrom"]

/-- `sum(1 for pattern in self.ERC20_PATTERNS if pattern in code_bytes)`
(raw_scanner.py line 89). -/
def erc20_matches (code : List Char) : ℕ :=
  ERC20_PATTERNS.countP (fun p => occursIn p.data code)

/-- `RawTokenScanner.is_erc20` (raw_scanner.py lines 79-111): bytecode
shorter than 100 bytes is rejected outright; otherwise at least 4 textual
ERC-20 signature matches classify as a token without consulting the probe;
otherwise the dynamic probe (`totalSupply()` and `decimals()` both
succeeding, supplied here as a flag) decides, with a failing probe —
and any other exception — yielding False. -/
def is_erc20 (code : List Char) (dynamic_probe_ok : Bool) : Bool :=
  if code.length < 100 then false
  else if 4 ≤ erc20_matches code then true
  else dynamic_probe_ok

end RawScanner

open RawScanner in
/-- C4 counterexample: a 36-byte bytecode containing exactly 4 of the 6
ERC-20 signatures is rejected by the length guard before the static
heuristic runs, so `is_erc20` returns false even though the claim requires
true for every such contract. -/
theorem C4_short_bytecode_counterexample :
    erc20_matches "balanceOfallowanceapprovetotalSupply".data = 4 ∧
    "balanceOfallowanceapprovetotalSupply".data.length = 36 ∧
    is_erc20 "balanceOfallowanceapprovetotalSupply".data false = false := by
  refine ⟨by decide, by decide, by decide⟩

open RawScanner in
/-- C4 (amended): provided the bytecode is at least 100 bytes long, a
contract whose bytecode contains exactly 4 of the 6 canonical ERC-20
signatures classifies as a token even when the dynamic probe fails (the
static branch returns before the probe is consulted). -/
theorem C4_static_four_matches (code : List Char) (dynamic_probe_ok : Bool)
    (hlen : 100 ≤ code.length) (hm : erc20_matches code = 4) :
    is_erc20 code dynamic_probe_ok = true := by
  unfold is_erc20
  rw [if_neg (by omega), if_pos (by omega)]

open RawScanner in
/-- C4 witness: the 4-signature bytecode padded to 100 bytes classifies as
a token with a failing probe. -/
theorem C4_static_four_matches_witness :
    100 ≤ ("balanceOfallowanceapprovetotalSupply".data ++ List.replicate 64 'x').length ∧
    erc20_matches ("balanceOfallowanceapprovetotalSupply".data ++ List.replicate 64 'x') = 4 ∧
    is_erc20 ("balanceOfallowanceapprovetotalSupply".data ++ List.replicate 64 'x') false = true :=
  ⟨by decide, by decide,
    C4_static_four_matches _ false (by decide) (by decide)⟩

namespace TokenScanner

/-- A transaction as `scan_block` sees it: the destination field (`None`
for a contract creation) and the hash used to fetch the receipt. -/
structure Tx where
  to_addr : Option String
  hash : String

/-- `TokenScanner.scan_block` (token_scanner.py lines 47-60), collecting the
contract addresses handed to `analyze_new_contract`.  The receipt oracle
returns `.error ()` when `get_transaction_receipt` raises, and `.ok none`
for a receipt with a falsy `contractAddress`.  The single try/except wraps
the whole transaction loop, so a raised receipt fetch ends the block's
processing with the addresses collected so far (`RawTokenScanner
.scan_new_deployments`, raw_scanner.py lines 49-70, has the same per-block
try/except with `continue`). -/
def scan_block (receipt : String → Except Unit (Option String)) : List Tx → List String
  | [] => []
  | tx :: rest =>
    match tx.to_addr with
    | some _ => scan_block receipt rest
    | none =>
      match receipt tx.hash with
      | .error _ => []
      | .ok none => scan_block receipt rest
      | .ok (some addr) => addr :: scan_block receipt rest

/-- The enclosing loop over blocks (token_scanner.py lines 34-37 /
raw_scanner.py line 49): each block is scanned with its own exception
barrier, so the results of the blocks concatenate. -/
def scan_blocks (receipt : String → Except Unit (Option String))
    (blocks : List (List Tx)) : List String :=
  (blocks.map (scan_block receipt)).flatten

end TokenScanner

open TokenScanner in
/-- C5 counterexample: in a block whose first creation transaction has a
failing receipt fetch, the second creation transaction is not examined
(the block yields nothing), although scanned alone it yields its address;
so the claim that every other transaction of the block is still processed
is false. -/
theorem C5_counterexample :
    scan_block (fun h => if h = "h1" then .error () else .ok (some "0xb"))
      [⟨none, "h1"⟩, ⟨none, "h2"⟩] = [] ∧
    scan_block (fun h => if h = "h1" then .error () else .ok (some "0xb"))
      [⟨none, "h2"⟩] = ["0xb"] := by
  refine ⟨by decide, by decide⟩

open TokenScanner in
/-- C5 (amended): a failing receipt fetch on a creation transaction aborts
the rest of that block — the block's result is exactly that of the prefix
before the failing transaction — while the per-block exception barrier
keeps every other block's processing unaffected. -/
theorem C5_receipt_failure_truncates_block
    (receipt : String → Except Unit (Option String))
    (pre post : List Tx) (bad : Tx) (bs1 bs2 : List (List Tx))
    (hto : bad.to_addr = none) (herr : receipt bad.hash = .error ()) :
    scan_block receipt (pre ++ bad :: post) = scan_block receipt pre ∧
    scan_blocks receipt (bs1 ++ (pre ++ bad :: post) :: bs2) =
      scan_blocks receipt bs1 ++ scan_block receipt pre ++ scan_blocks receipt bs2 := by
  have key : scan_block receipt (pre ++ bad :: post) = scan_block receipt pre := by
    induction pre with
    | nil => simp [scan_block, hto, herr]
    | cons t pre ih =>
      cases hcase : t.to_addr with
      | some a => simp [scan_block, hcase, ih]
      | none =>
        cases hr : receipt t.hash with
        | error e => simp [scan_block, hcase, hr]
        | ok o =>
          cases o with
          | none => simp [scan_block, hcase, hr, ih]
          | some addr => simp [scan_block, hcase, hr, ih]
  refine ⟨key, ?_⟩
  simp [scan_blocks, key, List.flatten_append]

open TokenScanner in
/-- C5 witness: with a concrete failing middle transaction, the block's
scan stops after the prefix and the surrounding blocks are unaffected. -/
theorem C5_receipt_failure_truncates_block_witness :
    (Tx.mk none "hbad").to_addr = none ∧
    (fun h => if h = "hbad" then (.error () : Except Unit (Option String))
      else .ok (some "0xg")) "hbad" = .error () ∧
    scan_block (fun h => if h = "hbad" then .error () else .ok (some "0xg"))
        ([⟨none, "h0"⟩] ++ Tx.mk none "hbad" :: [⟨none, "h2"⟩]) =
      scan_block (fun h => if h = "hbad" then .error () else .ok (some "0xg"))
        [⟨none, "h0"⟩] ∧
    scan_blocks (fun h => if h = "hbad" then .error () else .ok (some "0xg"))
        ([[⟨none, "h3"⟩]] ++ ([⟨none, "h0"⟩] ++ Tx.mk none "hbad" :: [⟨none, "h2"⟩]) :: [[⟨none, "h4"⟩]]) =
      scan_blocks (fun h => if h = "hbad" then .error () else .ok (some "0xg"))
          [[⟨none, "h3"⟩]] ++
        scan_block (fun h => if h = "hbad" then .error () else .ok (some "0xg"))
          [⟨none, "h0"⟩] ++
        scan_blocks (fun h => if h = "hbad" then .error () else .ok (some "0xg"))
          [[⟨none, "h4"⟩]] :=
  ⟨rfl, by simp,
    (C5_receipt_failure_truncates_block _ [⟨none, "h0"⟩] [⟨none, "h2"⟩] (Tx.mk none "hbad")
      [[⟨none, "h3"⟩]] [[⟨none, "h4"⟩]] rfl (by simp)).1,
    (C5_receipt_failure_truncates_block _ [⟨none, "h0"⟩] [⟨none, "h2"⟩] (Tx.mk none "hbad")
      [[⟨none, "h3"⟩]] [[⟨none, "h4"⟩]] rfl (by simp)).2⟩

